import Mathlib

/-!
Shallow embedding of the agreement-bot negotiation core
(`agreementbot` package, file `agreementworker.go` of the repository).

The embedding models the persistent store (agreement records and
workload-usage records) as explicit state, and every run of a handler
(`InitiateNewAgreement`, `HandleAgreementReply`, `CancelAgreement`,
`CancelAgreementWithLock`, `HandleWorkloadUpgrade`) as a pure function
from an environment (the outcomes of all external calls: exchange HTTP
calls, protocol handler calls, ledger writes, db errors) and an initial
store to a final store together with a trace of the externally visible
events the handler performs, in order (lock operations, acks, message
deletions, the ledger commit, deferred commands, store mutations).

External collaborators that the core only calls through interfaces
(the policy engine's `NextHighestPriorityWorkload`, the protocol
handler, the exchange) are modelled as environment-supplied functions;
persistence operations whose bodies are not part of the provided
source are modelled from the specification and marked as such.
-/

set_option maxHeartbeats 1000000

namespace AgreementBot

/-- Priority section of a workload (policy.WorkloadPriority): priority value,
retry threshold and the two duration settings. -/
structure Priority where
  priorityValue : Nat
  retries : Nat
  retryDurationS : Nat
  verifiedDurationS : Nat
deriving DecidableEq

/-- Workload entry of a policy (policy.Workload); only the fields the
negotiation core reads are modelled. -/
structure Workload where
  workloadURL : String
  org : String
  version : String
  arch : String
  priority : Priority
deriving DecidableEq

/-- Default workload value used for out-of-range list access. -/
def dWorkload : Workload := ⟨"", "", "", "", ⟨0, 0, 0, 0⟩⟩

/-- Modelled from the spec: policy.Workload.HasEmptyPriority (the policy
package is not part of the provided source). A workload has an empty
priority section when its priority value is unset (zero). -/
def Workload.HasEmptyPriority (w : Workload) : Bool :=
  w.priority.priorityValue == 0

/-- Modelled from the spec: policy.WorkloadPriority.IsSame (the policy
package is not part of the provided source). Two priority sections are
the same when all their fields agree. -/
def Priority.IsSame (p q : Priority) : Bool := p == q

/-- Policy fields read by the negotiation core: header name, pattern id,
the workload list, the HA-group partner list and the property names. -/
structure Policy where
  headerName : String
  patternId : String
  workloads : List Workload
  haPartners : List String
  properties : List String
deriving DecidableEq

/-- Agreement record of the store (persistence.Agreement); only the fields
the negotiation core reads or writes are modelled. -/
structure Agreement where
  currentAgreementId : String
  org : String
  deviceId : String
  policyName : String
  bcType : String
  bcName : String
  bcOrg : String
  protocol : String
  patternId : String
  proposal : String
  policy : String
  repliedTime : Nat
  counterPartyAddress : String
  agreementProtocolVersion : Nat
  timedOut : Bool
  archived : Bool
  terminationReason : Nat
  proposed : Bool
deriving DecidableEq

/-- Workload-usage record of the store (persistence.WorkloadUsage), keyed by
device id and policy name. -/
structure WorkloadUsage where
  deviceId : String
  policyName : String
  priority : Nat
  retryCount : Nat
  retryDurationS : Nat
  verifiedDurationS : Nat
  firstTryTime : Nat
  disableRetry : Bool
  reqsNotMet : Bool
  currentAgreementId : String
  policy : String
  haPartners : List String
deriving DecidableEq

/-- The durable store: agreement records and workload-usage records. -/
structure Store where
  agreements : List Agreement
  usages : List WorkloadUsage
deriving DecidableEq

/-- Predicate used by agreement lookups: id and protocol match, and when
the unarchived filter is applied, the record is not archived. -/
def agreementMatches (id protoName : String) (unarchivedOnly : Bool) (a : Agreement) : Bool :=
  a.currentAgreementId == id && a.protocol == protoName && (!unarchivedOnly || !a.archived)

/-- Lookup of a single agreement by id and protocol, optionally restricted
to unarchived records (FindSingleAgreementByAgreementId with
UnarchivedAFilter). -/
def FindSingleAgreementByAgreementId (st : Store) (id protoName : String)
    (unarchivedOnly : Bool) : Option Agreement :=
  st.agreements.find? (agreementMatches id protoName unarchivedOnly)

/-- Predicate for the workload-usage composite key (device id, policy name). -/
def usageMatches (device polName : String) (u : WorkloadUsage) : Bool :=
  u.deviceId == device && u.policyName == polName

/-- Lookup of the workload-usage record for a device and policy name
(FindSingleWorkloadUsageByDeviceAndPolicyName). -/
def FindSingleWorkloadUsageByDeviceAndPolicyName (st : Store) (device polName : String) :
    Option WorkloadUsage :=
  st.usages.find? (usageMatches device polName)

/-- Removal of the workload-usage record for a device and policy name
(DeleteWorkloadUsage). -/
def DeleteWorkloadUsage (st : Store) (device polName : String) : Store :=
  { st with usages := st.usages.filter fun u => !(usageMatches device polName u) }

/-- In-place update of the workload-usage record for a key. -/
def updateUsage (st : Store) (device polName : String) (f : WorkloadUsage → WorkloadUsage) :
    Store :=
  { st with usages := st.usages.map fun u => if usageMatches device polName u then f u else u }

/-- Modelled from the spec: persistence.NewWorkloadUsage (the persistence
package is not part of the provided source). Builds a fresh record from the
chosen workload priority section, with a zero retry count, retry enabled,
the given reqs-not-met flag and in-flight agreement id. -/
def NewWorkloadUsage (now : Nat) (device : String) (haPartners : List String)
    (policyStr polName : String) (pr : Priority) (reqsNotMet : Bool) (agId : String) :
    WorkloadUsage :=
  { deviceId := device
    policyName := polName
    priority := pr.priorityValue
    retryCount := 0
    retryDurationS := pr.retryDurationS
    verifiedDurationS := pr.verifiedDurationS
    firstTryTime := now
    disableRetry := false
    reqsNotMet := reqsNotMet
    currentAgreementId := agId
    policy := policyStr
    haPartners := haPartners }

/-- Appends a fresh workload-usage record to the store. -/
def insertUsage (st : Store) (u : WorkloadUsage) : Store :=
  { st with usages := st.usages ++ [u] }

/-- Modelled from the spec: persistence.UpdatePriority. Rewrites the priority
value and durations of the record, resets the retry count, and records the
in-flight agreement id. -/
def UpdatePriority (st : Store) (device polName : String)
    (priorityValue retryDurationS verifiedDurationS : Nat) (agId : String) : Store :=
  updateUsage st device polName fun u =>
    { u with priority := priorityValue, retryDurationS := retryDurationS,
             verifiedDurationS := verifiedDurationS, retryCount := 0,
             currentAgreementId := agId }

/-- Modelled from the spec: persistence.UpdateRetryCount. Sets the retry count
and records the in-flight agreement id. -/
def UpdateRetryCount (st : Store) (device polName : String) (count : Nat) (agId : String) :
    Store :=
  updateUsage st device polName fun u =>
    { u with retryCount := count, currentAgreementId := agId }

/-- Modelled from the spec: persistence.UpdatePolicy. Fills the merged-policy
text of the record. -/
def UpdatePolicy (st : Store) (device polName : String) (policyStr : String) : Store :=
  updateUsage st device polName fun u => { u with policy := policyStr }

/-- Modelled from the spec: persistence.UpdateWUAgreementId. Sets the
in-flight agreement id of the record and returns the updated record when one
exists. -/
def UpdateWUAgreementId (st : Store) (device polName agId : String) :
    Store × Option WorkloadUsage :=
  (updateUsage st device polName fun u => { u with currentAgreementId := agId },
   (FindSingleWorkloadUsageByDeviceAndPolicyName st device polName).map
     fun u => { u with currentAgreementId := agId })

/-- Pending agreement record created by AgreementAttempt. -/
def AgreementAttempt (agId org device polName bcType bcName bcOrg protoName patternId : String) :
    Agreement :=
  { currentAgreementId := agId
    org := org
    deviceId := device
    policyName := polName
    bcType := bcType
    bcName := bcName
    bcOrg := bcOrg
    protocol := protoName
    patternId := patternId
    proposal := ""
    policy := ""
    repliedTime := 0
    counterPartyAddress := ""
    agreementProtocolVersion := 0
    timedOut := false
    archived := false
    terminationReason := 0
    proposed := false }

/-- Appends a fresh agreement record to the store. -/
def insertAgreement (st : Store) (a : Agreement) : Store :=
  { st with agreements := st.agreements ++ [a] }

/-- In-place update of the unarchived agreement record with the given id and
protocol. -/
def updateAgreement (st : Store) (id protoName : String) (f : Agreement → Agreement) : Store :=
  { st with agreements :=
      st.agreements.map fun a => if agreementMatches id protoName true a then f a else a }

/-- Modelled from the spec: persistence.AgreementTimedout sets the terminated
state of the record; the fields the cancellation path later reads are
untouched. -/
def AgreementTimedout (st : Store) (id protoName : String) : Store :=
  updateAgreement st id protoName fun a => { a with timedOut := true }

/-- Modelled from the spec: persistence.ArchiveAgreement sets the archived
flag and fills the termination reason. -/
def ArchiveAgreement (st : Store) (id protoName : String) (reason : Nat) : Store :=
  updateAgreement st id protoName fun a => { a with archived := true, terminationReason := reason }

/-- Removal of the unarchived agreement record with the given id and protocol
(DeleteAgreement); used only to roll back a failed initiation. -/
def DeleteAgreement (st : Store) (id protoName : String) : Store :=
  { st with agreements := st.agreements.filter fun a => !(agreementMatches id protoName true a) }

/-- Modelled from the spec: PersistReply transitions the agreement to the
replied state, recording the replied timestamp, the counterparty address and
the protocol version from the reply. -/
def PersistReplyStore (st : Store) (id protoName : String) (now : Nat)
    (counterParty : String) (version : Nat) : Store :=
  updateAgreement st id protoName fun a =>
    { a with repliedTime := now, counterPartyAddress := counterParty,
             agreementProtocolVersion := version }

/-- Modelled from the spec: AlreadyReceivedReply is true iff the replied
timestamp of the agreement is nonzero. -/
def AlreadyReceivedReply (a : Agreement) : Bool := a.repliedTime != 0

/-- Semantic termination reasons the core passes to GetTerminationCode. -/
inductive TermReason where
  | negativeReply
  | cancelBCWriteFailed
  | cancelForcedUpgrade
deriving DecidableEq

/-- Externally visible events of a handler run, in program order: lock
operations, protocol acks, exchange message deletions, the ledger commit,
deferred commands, exchange state updates and store mutations. -/
inductive Ev where
  | lockAcquire (id : String)
  | lockRelease (id : String)
  | lockDelete (id : String)
  | sendAck (valid : Bool) (id : String)
  | deleteMessage (msgId : Nat)
  | persistReplyEv (id : String)
  | recordState (id : String)
  | postReply (id : String)
  | newWU (device polName : String) (w : Workload) (reqsNotMet : Bool) (agId : String)
  | updPriority (device polName : String) (priorityValue : Nat) (agId : String)
  | updRetryCount (device polName : String) (count : Nat) (agId : String)
  | updPolicy (device polName : String)
  | updWUAgId (device polName agId : String)
  | deleteWU (device polName : String)
  | cancelStart (id : String) (reason : Nat)
  | agreementTimedout (id : String)
  | deleteConsumerAg (id : String)
  | doAsyncCancel (id : String) (reason : Nat)
  | deferCmd (id : String) (protoName : String) (reason : Nat)
  | archiveAg (id : String) (reason : Nat)
  | agreementAttempt (id : String)
  | initiateProposal (id : String)
  | deleteAgreement (id : String)
  | persistAgreement (id : String)
deriving DecidableEq

/-- Result of a store-and-trace computation. -/
structure SOut where
  store : Store
  trace : List Ev
deriving DecidableEq

/-- Environment of the cancellation path: db error outcomes, the protocol
handler's CanCancelNow answer and the ledger writability probe. -/
structure CancelEnv where
  findErr : Bool
  updWUAgIdErr : Bool
  canCancelNow : Agreement → Bool
  isBCWritable : String → String → String → Bool

/-- CancelAgreement (lines 582-643 of the source): mark the agreement timed
out, delete the consumer agreement on the exchange, look the record up, detach
the workload usage (deleting it when reqs-not-met), run the async cancel when
possible now, defer an AsyncCancelAgreement command when the protocol version
is below 2 or the agreement's ledger is not writable, and archive the record. -/
def CancelAgreement (cenv : CancelEnv) (protoName agreementId : String) (reason : Nat)
    (st : Store) : SOut :=
  let st1 := AgreementTimedout st agreementId protoName
  let tr1 := [Ev.cancelStart agreementId reason, Ev.agreementTimedout agreementId,
              Ev.deleteConsumerAg agreementId]
  if cenv.findErr then ⟨st1, tr1⟩
  else
    match FindSingleAgreementByAgreementId st1 agreementId protoName true with
    | none => ⟨st1, tr1⟩
    | some ag =>
      let upd : Store × Option WorkloadUsage × List Ev :=
        if cenv.updWUAgIdErr then (st1, none, tr1)
        else
          let r := UpdateWUAgreementId st1 ag.deviceId ag.policyName ""
          (r.1, r.2, tr1 ++ [Ev.updWUAgId ag.deviceId ag.policyName ""])
      let st2 := upd.1
      let tr2 := upd.2.2
      let del : Store × List Ev :=
        match upd.2.1 with
        | some u =>
          if u.reqsNotMet then
            (DeleteWorkloadUsage st2 ag.deviceId ag.policyName,
             tr2 ++ [Ev.deleteWU ag.deviceId ag.policyName])
          else (st2, tr2)
        | none => (st2, tr2)
      let tr4 := del.2 ++
        (if cenv.canCancelNow ag || ag.counterPartyAddress == "" then
          [Ev.doAsyncCancel ag.currentAgreementId reason] else [])
      let tr5 := tr4 ++
        (if decide (ag.agreementProtocolVersion < 2) ||
            (ag.bcType != "" && !cenv.isBCWritable ag.bcType ag.bcName ag.bcOrg) then
          [Ev.deferCmd agreementId protoName reason] else [])
      ⟨ArchiveAgreement del.1 ag.currentAgreementId protoName reason,
       tr5 ++ [Ev.archiveAg ag.currentAgreementId reason]⟩

/-- CancelAgreementWithLock (lines 568-580): acquire the agreement-id lock,
cancel, release, and delete the lock. -/
def CancelAgreementWithLock (cenv : CancelEnv) (protoName agreementId : String) (reason : Nat)
    (st : Store) : SOut :=
  let r := CancelAgreement cenv protoName agreementId reason st
  ⟨r.store, Ev.lockAcquire agreementId :: (r.trace ++ [Ev.lockRelease agreementId,
    Ev.lockDelete agreementId])⟩

/-- Recognizer for deferred-cancellation commands in a trace. -/
def isDeferCmd : Ev → Bool
  | Ev.deferCmd _ _ _ => true
  | _ => false

/-- Recognizer for exchange message deletions in a trace. -/
def isDelMsg : Ev → Bool
  | Ev.deleteMessage _ => true
  | _ => false

/-- Workloads for which a fresh workload-usage record was created during a
trace. -/
def newWUEvents : List Ev → List Workload
  | [] => []
  | Ev.newWU _ _ w _ _ :: t => w :: newWUEvents t
  | _ :: t => newWUEvents t

/-- Reply work item (HandleReply): the reply payload fields the handler
reads, the sender, and the inbound exchange message id. -/
structure ReplyWI where
  replyAgreementId : String
  proposalAccepted : Bool
  counterParty : String
  protocolVersion : Nat
  senderId : String
  messageId : Nat

/-- Environment of the reply handler: outcomes of db reads, demarshalling,
the protocol-handler calls, the exchange calls and the ledger commit, plus
the policy engine's choice function and the termination-code table. -/
structure ReplyEnv where
  findAgErr : Bool
  demarshalProposal : String → Option String
  demarshalPolicy : String → Option Policy
  persistReplyOk : Bool
  recordStateOk : Bool
  findWUErr : Bool
  nhpw000 : Policy → Workload
  createMsgTarget : Bool
  postReplyOk : Bool
  getTerminationCode : TermReason → Nat
  now : Nat

/-- Result of the workload-usage reconciliation step of the reply handler. -/
structure ReconcileRes where
  store : Store
  trace : List Ev
  ackValid : Bool
deriving DecidableEq

/-- Workload-usage reconciliation of the reply handler (lines 394-431 of the
source): when no record exists, check the chosen workload against the current
highest-priority choice and create a record for a non-empty priority; when a
record exists, fill its policy text if empty and update priority, retry count
or in-flight agreement id according to the retry mode. -/
def ReconcileWorkloadUsage (env : ReplyEnv) (senderId : String) (pol consumerPolicy : Policy)
    (agPolicy replyAgId : String) (st : Store) : ReconcileRes :=
  if env.findWUErr then ⟨st, [], true⟩
  else
    let w0 := pol.workloads.getD 0 dWorkload
    match FindSingleWorkloadUsageByDeviceAndPolicyName st senderId consumerPolicy.headerName with
    | none =>
      let workload := env.nhpw000 consumerPolicy
      if !(Priority.IsSame workload.priority w0.priority) then ⟨st, [], false⟩
      else if !w0.HasEmptyPriority then
        ⟨insertUsage st (NewWorkloadUsage env.now senderId pol.haPartners agPolicy
            consumerPolicy.headerName w0.priority false replyAgId),
         [Ev.newWU senderId consumerPolicy.headerName w0 false replyAgId], true⟩
      else ⟨st, [], true⟩
    | some u =>
      let fill : Store × List Ev :=
        if u.policy == "" then
          (UpdatePolicy st senderId consumerPolicy.headerName agPolicy,
           [Ev.updPolicy senderId consumerPolicy.headerName])
        else (st, [])
      if !u.disableRetry then
        if w0.priority.priorityValue != u.priority then
          ⟨UpdatePriority fill.1 senderId consumerPolicy.headerName w0.priority.priorityValue
             w0.priority.retryDurationS w0.priority.verifiedDurationS replyAgId,
           fill.2 ++ [Ev.updPriority senderId consumerPolicy.headerName
             w0.priority.priorityValue replyAgId], true⟩
        else
          ⟨UpdateRetryCount fill.1 senderId consumerPolicy.headerName (u.retryCount + 1)
             replyAgId,
           fill.2 ++ [Ev.updRetryCount senderId consumerPolicy.headerName (u.retryCount + 1)
             replyAgId], true⟩
      else
        ⟨(UpdateWUAgreementId fill.1 senderId consumerPolicy.headerName replyAgId).1,
         fill.2 ++ [Ev.updWUAgId senderId consumerPolicy.headerName replyAgId], true⟩

/-- Result of the accepted-reply core: the running ack validity, whether a
reply ack may still be sent, whether the ack phase already deleted the message
and dropped the lock, and the store and trace so far. -/
structure CoreRes where
  ackValid : Bool
  sendReply : Bool
  ackPhaseDone : Bool
  store : Store
  trace : List Ev
deriving DecidableEq

/-- Accepted-reply path of HandleAgreementReply (lines 363-468 of the source
up to the ack phase): look the agreement up, discard duplicates silently,
demarshal the proposal and policies, persist the reply, record the state,
reconcile the workload usage, and when everything is valid send the positive
ack, delete the inbound message, drop the lock and perform the ledger commit,
cancelling under a fresh lock when the commit fails. -/
def replyAcceptedCore (env : ReplyEnv) (cenv : CancelEnv) (protoName : String) (wi : ReplyWI)
    (st : Store) : CoreRes :=
  let id := wi.replyAgreementId
  if env.findAgErr then ⟨false, true, false, st, []⟩
  else
    match FindSingleAgreementByAgreementId st id protoName true with
    | none => ⟨false, true, false, st, []⟩
    | some agreement =>
      if AlreadyReceivedReply agreement then ⟨false, false, false, st, []⟩
      else
        match env.demarshalProposal agreement.proposal with
        | none => ⟨false, true, false, st, []⟩
        | some tsandcs =>
          match env.demarshalPolicy tsandcs with
          | none => ⟨false, true, false, st, []⟩
          | some pol =>
            if !env.persistReplyOk then ⟨false, true, false, st, [Ev.persistReplyEv id]⟩
            else
              let st1 := PersistReplyStore st id protoName env.now wi.counterParty
                wi.protocolVersion
              if !env.recordStateOk then
                ⟨false, true, false, st1, [Ev.persistReplyEv id, Ev.recordState id]⟩
              else
                match env.demarshalPolicy agreement.policy with
                | none => ⟨false, true, false, st1, [Ev.persistReplyEv id, Ev.recordState id]⟩
                | some consumerPolicy =>
                  let rec1 := ReconcileWorkloadUsage env wi.senderId pol consumerPolicy
                    agreement.policy id st1
                  let tr3 := [Ev.persistReplyEv id, Ev.recordState id] ++ rec1.trace
                  if rec1.ackValid then
                    let ackEvs := (if env.createMsgTarget then [Ev.sendAck true id] else [])
                      ++ (if wi.messageId != 0 then [Ev.deleteMessage wi.messageId] else [])
                      ++ [Ev.lockRelease id, Ev.postReply id]
                    if env.postReplyOk then ⟨true, true, true, rec1.store, tr3 ++ ackEvs⟩
                    else
                      let c := CancelAgreementWithLock cenv protoName id
                        (env.getTerminationCode TermReason.cancelBCWriteFailed) rec1.store
                      ⟨false, true, true, c.store, tr3 ++ ackEvs ++ c.trace⟩
                  else ⟨false, true, false, rec1.store, tr3⟩

/-- Result of the reply handler: the returned ack validity, the final store
and the event trace. -/
structure ReplyRes where
  ackValid : Bool
  store : Store
  trace : List Ev
deriving DecidableEq

/-- HandleAgreementReply (lines 343-490 of the source): under the
agreement-id lock, process an accepted reply through replyAcceptedCore and
send the trailing negative ack when the reply was not validated but may be
acked; on a rejected reply run the cancellation path; finally drop the lock
and delete the inbound exchange message unless the ack phase already did. -/
def HandleAgreementReply (env : ReplyEnv) (cenv : CancelEnv) (protoName : String)
    (wi : ReplyWI) (st : Store) : ReplyRes :=
  let id := wi.replyAgreementId
  if wi.proposalAccepted then
    let r := replyAcceptedCore env cenv protoName wi st
    let negEvs := if !r.ackValid && r.sendReply && env.createMsgTarget then
      [Ev.sendAck false id] else []
    let tail := (if !r.ackPhaseDone then [Ev.lockRelease id] else [])
      ++ (if wi.messageId != 0 && !r.ackPhaseDone then [Ev.deleteMessage wi.messageId] else [])
    ⟨r.ackValid, r.store, Ev.lockAcquire id :: (r.trace ++ negEvs ++ tail)⟩
  else
    let c := CancelAgreement cenv protoName id (env.getTerminationCode TermReason.negativeReply)
      st
    ⟨false, c.store, Ev.lockAcquire id :: (c.trace ++ [Ev.lockRelease id]
      ++ (if wi.messageId != 0 then [Ev.deleteMessage wi.messageId] else []))⟩

/-- Agbot configuration values the core consumes. -/
structure AgbotConfig where
  ignoreContractWithAttribs : List String

/-- Legacy device filter (lines 707-715): a device is ignored when its
producer policy advertises a property whose name is configured in
IgnoreContractWithAttribs. -/
def ignoreDevice (cfg : AgbotConfig) (pol : Policy) : Bool :=
  pol.properties.any fun p => cfg.ignoreContractWithAttribs.contains p

/-- HA-group completeness check (lines 687-704): an error is reported when
the partner list is nonempty and some partner cannot be obtained from the
exchange. -/
def incompleteHAGroup (partnerOk : String → Bool) (prod : Policy) : Bool :=
  !(prod.haPartners.all partnerOk)

/-- Outcome of the GetWorkload exchange call for a chosen workload: an error,
a missing workload, or the details, with a flag telling whether the torrent
text is empty or demarshals. -/
inductive GetWLRes where
  | err
  | notFound
  | ok (torrentOk : Bool)
deriving DecidableEq

/-- Environment of InitiateNewAgreement: the generated agreement id, the
readiness of the protocol handler, outcomes of the exchange and db calls, and
the policy engine's priority-choice function. The choice function returns the
index of the chosen workload inside the consumer policy's workload list, so
that Go pointer equality between two choices becomes index equality; none
models a nil choice. -/
structure InitEnv where
  agreementId : Option String
  handlerReady : Bool
  getDeviceOk : Bool
  findWUErr : Bool
  nextWorkload : Nat → Nat → Nat → Option Nat
  getWorkload : Nat → GetWLRes
  merge : Nat → Option (Option Policy)
  supports : Nat → Bool
  newWUErr : Bool
  updPriorityErr : Bool
  updRetryErr : Bool
  partnerOk : String → Bool
  attemptErr : Bool
  createMsgTargetOk : Bool
  initiateOk : Bool
  deleteAgErr : Bool
  persistAgreementOk : Bool
  now : Nat

/-- Initiate work item (InitiateAgreement event body): the producer and
consumer policies, the org and the device. -/
structure InitiateWI where
  producerPolicy : Policy
  consumerPolicy : Policy
  org : String
  deviceId : String

/-- Workload choice of one selection-loop pass (lines 183-192 of the source):
with no usage record the highest-priority workload, with retries disabled the
next below the recorded priority, otherwise the next consistent with the
recorded priority and incremented retry count. -/
def selectWorkloadChoice (nextWorkload : Nat → Nat → Nat → Option Nat) (st : Store)
    (device polName : String) : Option Nat :=
  match FindSingleWorkloadUsageByDeviceAndPolicyName st device polName with
  | none => nextWorkload 0 0 0
  | some u =>
    if u.disableRetry then nextWorkload u.priority 0 u.firstTryTime
    else nextWorkload u.priority (u.retryCount + 1) u.firstTryTime

/-- Exit condition of the workload-selection loop. -/
inductive LoopExit where
  | found (i : Nat) (prod : Policy)
  | failed
  | abandoned
  | stuck
  | fuelOut
deriving DecidableEq

/-- Result of a selection-loop run. -/
structure RunRes where
  store : Store
  trace : List Ev
  exit : LoopExit
deriving DecidableEq

/-- Outcome of one selection-loop iteration: an exit of the whole function,
or a pass to the next iteration with the updated store, the events of this
pass, the (possibly merged) producer policy, and this pass's choice recorded
as the last tried workload. -/
inductive IterRes where
  | exit (res : RunRes)
  | step (st : Store) (tr : List Ev) (prod : Policy) (lastW : Option Nat)
deriving DecidableEq

/-- One iteration of the workload-selection loop of InitiateNewAgreement
(lines 181-299 of the source): read the usage record, choose a workload,
exit when the choice repeats the previous pass (deleting the usage record),
fetch the workload details, merge device microservice policies when a pattern
is set, and either accept the supported workload or record the skipped
higher-priority workload (create or update the usage record and bump the
retry count past the retries threshold) and loop. -/
def initiateIter (env : InitEnv) (wi : InitiateWI) (agId : String) (st : Store) (prod : Policy)
    (lastW : Option Nat) : IterRes :=
  if env.findWUErr then IterRes.exit ⟨st, [], LoopExit.abandoned⟩
  else
    let choice := selectWorkloadChoice env.nextWorkload st wi.deviceId
      wi.consumerPolicy.headerName
    if choice == lastW then
      IterRes.exit ⟨DeleteWorkloadUsage st wi.deviceId wi.consumerPolicy.headerName,
        [Ev.deleteWU wi.deviceId wi.consumerPolicy.headerName], LoopExit.failed⟩
    else
      match choice with
      | none => IterRes.exit ⟨st, [], LoopExit.stuck⟩
      | some i =>
        match env.getWorkload i with
        | GetWLRes.err => IterRes.exit ⟨st, [], LoopExit.abandoned⟩
        | GetWLRes.notFound => IterRes.exit ⟨st, [], LoopExit.abandoned⟩
        | GetWLRes.ok torrentOk =>
          match (if wi.consumerPolicy.patternId == "" then some prod
                 else match env.merge i with
                      | none => none
                      | some none => some prod
                      | some (some p) => some p) with
          | none => IterRes.exit ⟨st, [], LoopExit.abandoned⟩
          | some prod2 =>
            let w := wi.consumerPolicy.workloads.getD i dWorkload
            if env.supports i then
              if torrentOk then IterRes.exit ⟨st, [], LoopExit.found i prod2⟩
              else IterRes.exit ⟨st, [], LoopExit.abandoned⟩
            else if w.HasEmptyPriority then IterRes.step st [] prod2 (some i)
            else
              match lastW with
              | some _ =>
                if env.updPriorityErr then IterRes.exit ⟨st, [], LoopExit.abandoned⟩
                else
                  let st1 := UpdatePriority st wi.deviceId wi.consumerPolicy.headerName
                    w.priority.priorityValue w.priority.retryDurationS
                    w.priority.verifiedDurationS agId
                  if env.updRetryErr then
                    IterRes.exit ⟨st1, [Ev.updPriority wi.deviceId
                      wi.consumerPolicy.headerName w.priority.priorityValue agId],
                      LoopExit.abandoned⟩
                  else
                    IterRes.step
                      (UpdateRetryCount st1 wi.deviceId wi.consumerPolicy.headerName
                        (w.priority.retries + 1) agId)
                      [Ev.updPriority wi.deviceId wi.consumerPolicy.headerName
                        w.priority.priorityValue agId,
                       Ev.updRetryCount wi.deviceId wi.consumerPolicy.headerName
                        (w.priority.retries + 1) agId]
                      prod2 (some i)
              | none =>
                if env.newWUErr ||
                    (FindSingleWorkloadUsageByDeviceAndPolicyName st wi.deviceId
                      wi.consumerPolicy.headerName).isSome then
                  IterRes.exit ⟨st, [], LoopExit.abandoned⟩
                else
                  let st1 := insertUsage st (NewWorkloadUsage env.now wi.deviceId
                    prod2.haPartners "" wi.consumerPolicy.headerName w.priority true agId)
                  if env.updRetryErr then
                    IterRes.exit ⟨st1, [Ev.newWU wi.deviceId wi.consumerPolicy.headerName
                      w true agId], LoopExit.abandoned⟩
                  else
                    IterRes.step
                      (UpdateRetryCount st1 wi.deviceId wi.consumerPolicy.headerName
                        (w.priority.retries + 1) agId)
                      [Ev.newWU wi.deviceId wi.consumerPolicy.headerName w true agId,
                       Ev.updRetryCount wi.deviceId wi.consumerPolicy.headerName
                        (w.priority.retries + 1) agId]
                      prod2 (some i)

/-- Fuel-bounded workload-selection loop: iterate initiateIter until an exit,
accumulating the per-pass traces. -/
def initiateLoop (env : InitEnv) (wi : InitiateWI) (agId : String) :
    Nat → Store → Policy → Option Nat → RunRes
  | 0, st, _, _ => ⟨st, [], LoopExit.fuelOut⟩
  | fuel + 1, st, prod, lastW =>
    match initiateIter env wi agId st prod lastW with
    | IterRes.exit res => res
    | IterRes.step st1 tr1 prod1 last1 =>
      let r := initiateLoop env wi agId fuel st1 prod1 last1
      ⟨r.store, tr1 ++ r.trace, r.exit⟩

/-- Post-loop phase of InitiateNewAgreement (lines 301-341 of the source):
check HA-group completeness and the ignore list, persist the pending
agreement, create the message target, initiate the protocol (rolling the
pending record back on failure), and persist the proposal. -/
def initiateFinish (env : InitEnv) (cfg : AgbotConfig) (wi : InitiateWI)
    (agId bcType bcName bcOrg protoName : String) (prod : Policy) (st : Store) : SOut :=
  if incompleteHAGroup env.partnerOk prod then ⟨st, []⟩
  else if ignoreDevice cfg prod then ⟨st, []⟩
  else if env.attemptErr ||
      (FindSingleAgreementByAgreementId st agId protoName true).isSome then ⟨st, []⟩
  else
    let st1 := insertAgreement st (AgreementAttempt agId wi.org wi.deviceId
      wi.consumerPolicy.headerName bcType bcName bcOrg protoName wi.consumerPolicy.patternId)
    if !env.createMsgTargetOk then ⟨st1, [Ev.agreementAttempt agId]⟩
    else if !env.initiateOk then
      ⟨(if env.deleteAgErr then st1 else DeleteAgreement st1 agId protoName),
       [Ev.agreementAttempt agId, Ev.initiateProposal agId, Ev.deleteAgreement agId]⟩
    else
      ⟨(if env.persistAgreementOk then
          updateAgreement st1 agId protoName fun a => { a with proposed := true }
        else st1),
       [Ev.agreementAttempt agId, Ev.initiateProposal agId, Ev.persistAgreement agId]⟩

/-- InitiateNewAgreement (lines 137-341 of the source): generate an agreement
id, require a ready protocol handler, take the agreement-id lock, query the
device policies when a pattern is set, run the workload-selection loop, and
on success run the post-loop phase; the deferred unlock closes every path
taken under the lock. -/
def InitiateNewAgreement (env : InitEnv) (cfg : AgbotConfig) (wi : InitiateWI)
    (bcType bcName bcOrg protoName : String) (fuel : Nat) (st : Store) : RunRes :=
  match env.agreementId with
  | none => ⟨st, [], LoopExit.abandoned⟩
  | some agId =>
    if !env.handlerReady then ⟨st, [], LoopExit.abandoned⟩
    else if wi.consumerPolicy.patternId != "" && !env.getDeviceOk then
      ⟨st, [Ev.lockAcquire agId, Ev.lockRelease agId], LoopExit.abandoned⟩
    else
      let r := initiateLoop env wi agId fuel st wi.producerPolicy none
      match r.exit with
      | LoopExit.found i prod =>
        let f := initiateFinish env cfg wi agId bcType bcName bcOrg protoName prod r.store
        ⟨f.store, Ev.lockAcquire agId :: (r.trace ++ f.trace ++ [Ev.lockRelease agId]),
         LoopExit.found i prod⟩
      | ex => ⟨r.store, Ev.lockAcquire agId :: (r.trace ++ [Ev.lockRelease agId]), ex⟩

/-- Workload-upgrade work item (HandleWorkloadUpgrade event body). -/
structure UpgradeWI where
  agreementId : String
  device : String
  policyName : String

/-- Modelled from the spec: FindAgreements with the device/policy filter,
used by the upgrade path to locate the agreements of a device under a policy
name. -/
def FindAgreementsDevPol (st : Store) (device polName protoName : String) : List Agreement :=
  st.agreements.filter fun a =>
    a.deviceId == device && a.policyName == polName && a.protocol == protoName

/-- One cancellation of the upgrade path's loop over found agreements:
cancel the agreement under its lock and append the events. -/
def upgradeCancelStep (cenv : CancelEnv) (protoName : String) (reason : Nat) (acc : SOut)
    (ag : Agreement) : SOut :=
  let c := CancelAgreementWithLock cenv protoName ag.currentAgreementId reason acc.store
  ⟨c.store, acc.trace ++ c.trace⟩

/-- HandleWorkloadUpgrade (lines 528-566 of the source): cancel the given
agreement under its lock with the forced-upgrade reason, or cancel every
agreement found for the device and policy name, then always delete the
workload-usage record for that key. -/
def HandleWorkloadUpgrade (cenv : CancelEnv) (codeFn : TermReason → Nat) (findAgsErr : Bool)
    (protoName : String) (wi : UpgradeWI) (st : Store) : SOut :=
  let r : SOut :=
    if wi.agreementId == "" then
      if findAgsErr then ⟨st, []⟩
      else
        (FindAgreementsDevPol st wi.device wi.policyName protoName).foldl
          (upgradeCancelStep cenv protoName (codeFn TermReason.cancelForcedUpgrade))
          ⟨st, []⟩
    else
      CancelAgreementWithLock cenv protoName wi.agreementId
        (codeFn TermReason.cancelForcedUpgrade) st
  ⟨DeleteWorkloadUsage r.store wi.device wi.policyName,
   r.trace ++ [Ev.deleteWU wi.device wi.policyName]⟩

/-- Trace of a single selection-loop iteration outcome. -/
def iterTrace : IterRes → List Ev
  | IterRes.exit res => res.trace
  | IterRes.step _ tr _ _ => tr

/-- Concrete cancellation environment used by witnesses. -/
def cenvW : CancelEnv := ⟨false, false, fun _ => true, fun _ _ _ => true⟩

/-- Concrete protocol-version-1 agreement used by witnesses. -/
def agW : Agreement :=
  { currentAgreementId := "a1", org := "o", deviceId := "d1", policyName := "p1",
    bcType := "", bcName := "", bcOrg := "", protocol := "CS", patternId := "",
    proposal := "prop", policy := "cpol", repliedTime := 0, counterPartyAddress := "",
    agreementProtocolVersion := 1, timedOut := false, archived := false,
    terminationReason := 0, proposed := false }

/-- Concrete store holding only agW. -/
def stW : Store := ⟨[agW], []⟩

/-- Concrete reply environment used by witnesses. -/
def renvW : ReplyEnv :=
  { findAgErr := false, demarshalProposal := fun _ => none,
    demarshalPolicy := fun _ => none, persistReplyOk := true, recordStateOk := true,
    findWUErr := false, nhpw000 := fun _ => dWorkload, createMsgTarget := true,
    postReplyOk := true, getTerminationCode := fun _ => 0, now := 1 }

/-- Concrete agreement that already received a reply. -/
def agW2 : Agreement := { agW with currentAgreementId := "a2", repliedTime := 5 }

/-- Concrete store holding only agW2. -/
def stW2 : Store := ⟨[agW2], []⟩

/-- Concrete duplicate-reply work item. -/
def rwiW : ReplyWI := ⟨"a2", true, "cp", 2, "d1", 3⟩

/-- Concrete upgrade work item used by witnesses. -/
def uwiW : UpgradeWI := ⟨"a1", "d1", "p1"⟩

/-- Concrete non-empty-priority workload used by witnesses. -/
def wlW3 : Workload := ⟨"u3", "o3", "1.0.0", "amd64", ⟨2, 1, 600, 600⟩⟩

/-- Concrete terms-and-conditions policy used by witnesses. -/
def polW3 : Policy := ⟨"tspol", "", [wlW3], [], []⟩

/-- Concrete consumer policy used by witnesses. -/
def cpolW3 : Policy := ⟨"p3", "", [wlW3], [], []⟩

/-- Concrete pending agreement used by witnesses of the reply path. -/
def agW3 : Agreement :=
  { agW with currentAgreementId := "a3", proposal := "prop3", policy := "cpolstr" }

/-- Concrete store holding only agW3. -/
def stW3 : Store := ⟨[agW3], []⟩

/-- Concrete accepted-reply work item for agW3. -/
def rwiW3 : ReplyWI := ⟨"a3", true, "cp", 2, "dev3", 4⟩

/-- Concrete reply environment whose demarshalling returns polW3 for the
terms-and-conditions text and cpolW3 otherwise. -/
def renvW3 : ReplyEnv :=
  { findAgErr := false,
    demarshalProposal := fun _ => some "ts",
    demarshalPolicy := fun s => if s == "ts" then some polW3 else some cpolW3,
    persistReplyOk := true, recordStateOk := true, findWUErr := false,
    nhpw000 := fun _ => wlW3, createMsgTarget := true, postReplyOk := true,
    getTerminationCode := fun _ => 7, now := 1 }

/-- Trivial initiate environment whose id generation fails. -/
def envInitTriv : InitEnv :=
  { agreementId := none, handlerReady := false, getDeviceOk := false, findWUErr := false,
    nextWorkload := fun _ _ _ => none, getWorkload := fun _ => GetWLRes.err,
    merge := fun _ => none, supports := fun _ => false, newWUErr := false,
    updPriorityErr := false, updRetryErr := false, partnerOk := fun _ => true,
    attemptErr := false, createMsgTargetOk := false, initiateOk := false,
    deleteAgErr := false, persistAgreementOk := false, now := 0 }

/-- Trivial initiate work item. -/
def wiInitTriv : InitiateWI := ⟨polW3, cpolW3, "o", "d"⟩

/-- Empty agbot configuration. -/
def cfgW : AgbotConfig := ⟨[]⟩

/-- Reply environment whose ledger commit fails. -/
def renvW4 : ReplyEnv := { renvW3 with postReplyOk := false }

/-- Store after the reply path of renvW4 persisted the reply and created the
usage record. -/
def stC1 : Store :=
  insertUsage (PersistReplyStore stW3 "a3" "CS" 1 "cp" 2)
    (NewWorkloadUsage 1 "dev3" [] "cpolstr" "p3" wlW3.priority false "a3")

/-- Initiate environment whose chosen workload is unsupported. -/
def envC5 : InitEnv :=
  { envInitTriv with
    nextWorkload := fun _ _ _ => some 0
    getWorkload := fun _ => GetWLRes.ok true
    supports := fun _ => false
    now := 9 }

/-- Empty-priority workload used by the C4 counterexample. -/
def wlC4 : Workload := ⟨"u4", "o4", "1.0.0", "amd64", ⟨0, 0, 0, 0⟩⟩

/-- Consumer policy whose only workload has an empty priority. -/
def cpolC4 : Policy := ⟨"polC4", "", [wlC4], [], []⟩

/-- Initiate work item for the C4 counterexample. -/
def wiC4 : InitiateWI := ⟨polW3, cpolC4, "o", "d1"⟩

/-- Workload-usage record that exists before the selection loop runs. -/
def usageC4 : WorkloadUsage :=
  ⟨"d1", "polC4", 5, 0, 0, 0, 7, true, false, "old", "", []⟩

/-- Store holding only the pre-existing record usageC4. -/
def stC4 : Store := ⟨[], [usageC4]⟩

/-- Initiate environment for the C4 counterexample: the same unsupported
empty-priority workload is chosen on every pass. -/
def envC4 : InitEnv :=
  { envInitTriv with
    agreementId := some "agX"
    handlerReady := true
    getDeviceOk := true
    nextWorkload := fun _ _ _ => some 0
    getWorkload := fun _ => GetWLRes.ok true
    supports := fun _ => false }

@[simp]
theorem usages_updateAgreement (st : Store) (id p : String) (f : Agreement → Agreement) :
    (updateAgreement st id p f).usages = st.usages := rfl

@[simp]
theorem usages_insertAgreement (st : Store) (a : Agreement) :
    (insertAgreement st a).usages = st.usages := rfl

@[simp]
theorem agreements_updateUsage (st : Store) (d p : String) (f : WorkloadUsage → WorkloadUsage) :
    (updateUsage st d p f).agreements = st.agreements := rfl

@[simp]
theorem agreements_insertUsage (st : Store) (u : WorkloadUsage) :
    (insertUsage st u).agreements = st.agreements := rfl

@[simp]
theorem agreements_deleteWU (st : Store) (d p : String) :
    (DeleteWorkloadUsage st d p).agreements = st.agreements := rfl

theorem findAg_updateAgreement (st : Store) (id proto : String) (f : Agreement → Agreement)
    (hf : ∀ a, agreementMatches id proto true (f a) = agreementMatches id proto true a) :
    FindSingleAgreementByAgreementId (updateAgreement st id proto f) id proto true
      = (FindSingleAgreementByAgreementId st id proto true).map f := by
  unfold FindSingleAgreementByAgreementId updateAgreement
  rw [show ({ st with agreements := st.agreements.map fun a =>
        if agreementMatches id proto true a then f a else a } : Store).agreements
      = st.agreements.map (fun a => if agreementMatches id proto true a then f a else a)
    from rfl]
  rw [List.find?_map]
  have hp : (agreementMatches id proto true ∘ fun a =>
      if agreementMatches id proto true a then f a else a) = agreementMatches id proto true := by
    funext a
    by_cases h : agreementMatches id proto true a = true
    · simp only [Function.comp_apply, h, if_pos]
      rw [hf a, h]
    · simp only [Function.comp_apply, Bool.not_eq_true] at h
      simp only [Function.comp_apply, h, Bool.false_eq_true, if_false]
  rw [hp]
  cases hfind : st.agreements.find? (agreementMatches id proto true) with
  | none => rfl
  | some a =>
    have := List.find?_some hfind
    simp only [Option.map_some']
    rw [if_pos this]

theorem findWU_updateUsage (st : Store) (dev pol : String) (f : WorkloadUsage → WorkloadUsage)
    (hf : ∀ u, usageMatches dev pol (f u) = usageMatches dev pol u) :
    FindSingleWorkloadUsageByDeviceAndPolicyName (updateUsage st dev pol f) dev pol
      = (FindSingleWorkloadUsageByDeviceAndPolicyName st dev pol).map f := by
  unfold FindSingleWorkloadUsageByDeviceAndPolicyName updateUsage
  rw [show ({ st with usages := st.usages.map fun u =>
        if usageMatches dev pol u then f u else u } : Store).usages
      = st.usages.map (fun u => if usageMatches dev pol u then f u else u) from rfl]
  rw [List.find?_map]
  have hp : (usageMatches dev pol ∘ fun u =>
      if usageMatches dev pol u then f u else u) = usageMatches dev pol := by
    funext u
    by_cases h : usageMatches dev pol u = true
    · simp only [Function.comp_apply, h, if_pos]
      rw [hf u, h]
    · simp only [Function.comp_apply, Bool.not_eq_true] at h
      simp only [Function.comp_apply, h, Bool.false_eq_true, if_false]
  rw [hp]
  cases hfind : st.usages.find? (usageMatches dev pol) with
  | none => rfl
  | some u =>
    have := List.find?_some hfind
    simp only [Option.map_some']
    rw [if_pos this]

theorem findWU_insertUsage (st : Store) (u : WorkloadUsage) (dev pol : String)
    (hnone : FindSingleWorkloadUsageByDeviceAndPolicyName st dev pol = none)
    (hu : usageMatches dev pol u = true) :
    FindSingleWorkloadUsageByDeviceAndPolicyName (insertUsage st u) dev pol = some u := by
  unfold FindSingleWorkloadUsageByDeviceAndPolicyName insertUsage
  rw [show ({ st with usages := st.usages ++ [u] } : Store).usages = st.usages ++ [u] from rfl]
  rw [List.find?_append]
  unfold FindSingleWorkloadUsageByDeviceAndPolicyName at hnone
  rw [hnone]
  simp [List.find?, hu]

theorem findWU_deleteWU (st : Store) (dev pol : String) :
    FindSingleWorkloadUsageByDeviceAndPolicyName (DeleteWorkloadUsage st dev pol) dev pol
      = none := by
  unfold FindSingleWorkloadUsageByDeviceAndPolicyName DeleteWorkloadUsage
  rw [show ({ st with usages := st.usages.filter fun u => !(usageMatches dev pol u) } :
      Store).usages = st.usages.filter (fun u => !(usageMatches dev pol u)) from rfl]
  rw [List.find?_eq_none]
  intro u hu
  rw [List.mem_filter] at hu
  have h2 := hu.2
  simp only [Bool.not_eq_true'] at h2
  simp [h2]

/-- C6: in CancelAgreement, for a found unarchived agreement whose protocol
version is below 2, or which names a ledger that is not currently writable,
exactly one AsyncCancelAgreement command carrying the agreement id, the
protocol name and the reason is enqueued via DeferCommand. -/
theorem C6_cancelAgreement_defers_once (cenv : CancelEnv) (protoName agreementId : String)
    (reason : Nat) (st : Store) (ag : Agreement)
    (hferr : cenv.findErr = false)
    (hfind : FindSingleAgreementByAgreementId st agreementId protoName true = some ag)
    (hcond : ag.agreementProtocolVersion < 2 ∨
      (ag.bcType ≠ "" ∧ cenv.isBCWritable ag.bcType ag.bcName ag.bcOrg = false)) :
    (CancelAgreement cenv protoName agreementId reason st).trace.countP isDeferCmd = 1 ∧
    Ev.deferCmd agreementId protoName reason ∈
      (CancelAgreement cenv protoName agreementId reason st).trace := by
  have hfind2 : FindSingleAgreementByAgreementId
      (AgreementTimedout st agreementId protoName) agreementId protoName true
      = some { ag with timedOut := true } := by
    unfold AgreementTimedout
    rw [findAg_updateAgreement st agreementId protoName
      (fun a => { a with timedOut := true }) (fun a => rfl)]
    rw [hfind]
    rfl
  have hb : (decide (ag.agreementProtocolVersion < 2) ||
      (ag.bcType != "" && !cenv.isBCWritable ag.bcType ag.bcName ag.bcOrg)) = true := by
    rcases hcond with h | ⟨h1, h2⟩
    · simp [h]
    · simp [h2, bne_iff_ne, h1]
  simp only [CancelAgreement]
  rw [hfind2]
  simp only [hferr, Bool.false_eq_true, if_false]
  by_cases hupd : cenv.updWUAgIdErr = true
  · simp only [hupd, if_pos]
    simp only [hb]
    by_cases hcc : (cenv.canCancelNow { ag with timedOut := true } ||
        ({ ag with timedOut := true } : Agreement).counterPartyAddress == "") = true
    · simp [hcc, isDeferCmd, List.countP_append, List.countP_cons]
    · simp only [Bool.not_eq_true] at hcc
      simp [hcc, isDeferCmd, List.countP_append, List.countP_cons]
  · simp only [Bool.not_eq_true] at hupd
    simp only [hupd, Bool.false_eq_true, if_false]
    simp only [hb]
    cases hu : (UpdateWUAgreementId (AgreementTimedout st agreementId protoName)
        ({ ag with timedOut := true } : Agreement).deviceId
        ({ ag with timedOut := true } : Agreement).policyName "").2 with
    | none =>
      by_cases hcc : (cenv.canCancelNow { ag with timedOut := true } ||
          ({ ag with timedOut := true } : Agreement).counterPartyAddress == "") = true
      · simp [hu, hcc, isDeferCmd, List.countP_append, List.countP_cons]
      · simp only [Bool.not_eq_true] at hcc
        simp [hu, hcc, isDeferCmd, List.countP_append, List.countP_cons]
    | some u =>
      by_cases hrnm : u.reqsNotMet = true
      · by_cases hcc : (cenv.canCancelNow { ag with timedOut := true } ||
            ({ ag with timedOut := true } : Agreement).counterPartyAddress == "") = true
        · simp [hu, hrnm, hcc, isDeferCmd, List.countP_append, List.countP_cons]
        · simp only [Bool.not_eq_true] at hcc
          simp [hu, hrnm, hcc, isDeferCmd, List.countP_append, List.countP_cons]
      · simp only [Bool.not_eq_true] at hrnm
        by_cases hcc : (cenv.canCancelNow { ag with timedOut := true } ||
            ({ ag with timedOut := true } : Agreement).counterPartyAddress == "") = true
        · simp [hu, hrnm, hcc, isDeferCmd, List.countP_append, List.countP_cons]
        · simp only [Bool.not_eq_true] at hcc
          simp [hu, hrnm, hcc, isDeferCmd, List.countP_append, List.countP_cons]

/-- Witness for C6: a concrete protocol-version-1 agreement gets exactly one
deferred cancellation command. -/
theorem C6_witness :
    (CancelAgreement cenvW "CS" "a1" 9 stW).trace.countP isDeferCmd = 1 ∧
    Ev.deferCmd "a1" "CS" 9 ∈ (CancelAgreement cenvW "CS" "a1" 9 stW).trace :=
  C6_cancelAgreement_defers_once cenvW "CS" "a1" 9 stW agW rfl (by decide)
    (Or.inl (by decide))

/-- C2: a positive reply for an agreement whose replied timestamp is already
nonzero is discarded silently: the handler returns an invalid ack, sends no
reply ack at all, and leaves the store untouched. -/
theorem C2_duplicate_reply_noop (env : ReplyEnv) (cenv : CancelEnv) (protoName : String)
    (wi : ReplyWI) (st : Store) (ag : Agreement)
    (hacc : wi.proposalAccepted = true)
    (hferr : env.findAgErr = false)
    (hfind : FindSingleAgreementByAgreementId st wi.replyAgreementId protoName true = some ag)
    (hdup : AlreadyReceivedReply ag = true) :
    (HandleAgreementReply env cenv protoName wi st).store = st
    ∧ (HandleAgreementReply env cenv protoName wi st).ackValid = false
    ∧ ∀ v s, Ev.sendAck v s ∉ (HandleAgreementReply env cenv protoName wi st).trace := by
  have hcore : replyAcceptedCore env cenv protoName wi st = ⟨false, false, false, st, []⟩ := by
    simp only [replyAcceptedCore, hferr, Bool.false_eq_true, if_false]
    rw [hfind]
    simp [hdup]
  refine ⟨?_, ?_, ?_⟩ <;>
    simp only [HandleAgreementReply, hacc, if_true, hcore] <;>
    by_cases hm : wi.messageId = 0 <;>
    simp [hm]

/-- Witness for C2: a concrete second delivery of a positive reply changes
nothing and sends no ack. -/
theorem C2_witness :
    (HandleAgreementReply renvW cenvW "CS" rwiW stW2).store = stW2
    ∧ (HandleAgreementReply renvW cenvW "CS" rwiW stW2).ackValid = false
    ∧ Ev.sendAck false "a2" ∉ (HandleAgreementReply renvW cenvW "CS" rwiW stW2).trace :=
  ⟨(C2_duplicate_reply_noop renvW cenvW "CS" rwiW stW2 agW2 rfl rfl (by decide)
      (by decide)).1,
   (C2_duplicate_reply_noop renvW cenvW "CS" rwiW stW2 agW2 rfl rfl (by decide)
      (by decide)).2.1,
   (C2_duplicate_reply_noop renvW cenvW "CS" rwiW stW2 agW2 rfl rfl (by decide)
      (by decide)).2.2 false "a2"⟩

theorem cancelStart_mem (cenv : CancelEnv) (proto id : String) (reason : Nat) (st : Store) :
    Ev.cancelStart id reason ∈ (CancelAgreement cenv proto id reason st).trace := by
  simp only [CancelAgreement]
  repeat' split
  all_goals simp

theorem cancel_countDelMsg (cenv : CancelEnv) (proto id : String) (reason : Nat) (st : Store) :
    (CancelAgreement cenv proto id reason st).trace.countP isDelMsg = 0 := by
  simp only [CancelAgreement]
  repeat' split
  all_goals simp [isDelMsg, List.countP_append, List.countP_cons]

theorem cancelWithLock_countDelMsg (cenv : CancelEnv) (proto id : String) (reason : Nat)
    (st : Store) :
    (CancelAgreementWithLock cenv proto id reason st).trace.countP isDelMsg = 0 := by
  simp only [CancelAgreementWithLock]
  simp [isDelMsg, List.countP_append, List.countP_cons, cancel_countDelMsg]

theorem newWUEvents_append (l1 l2 : List Ev) :
    newWUEvents (l1 ++ l2) = newWUEvents l1 ++ newWUEvents l2 := by
  induction l1 with
  | nil => rfl
  | cons e t ih => cases e <;> simp [newWUEvents, ih]

theorem cancel_newWUEvents (cenv : CancelEnv) (proto id : String) (reason : Nat) (st : Store) :
    newWUEvents (CancelAgreement cenv proto id reason st).trace = [] := by
  simp only [CancelAgreement]
  repeat' split
  all_goals simp [newWUEvents, newWUEvents_append]

theorem cancelWithLock_newWUEvents (cenv : CancelEnv) (proto id : String) (reason : Nat)
    (st : Store) :
    newWUEvents (CancelAgreementWithLock cenv proto id reason st).trace = [] := by
  simp only [CancelAgreementWithLock]
  simp [newWUEvents, newWUEvents_append, cancel_newWUEvents]

theorem upgradeFold_trace_mono (cenv : CancelEnv) (proto : String) (reason : Nat) :
    ∀ (ags : List Agreement) (acc : SOut) (e : Ev), e ∈ acc.trace →
      e ∈ (ags.foldl (upgradeCancelStep cenv proto reason) acc).trace := by
  intro ags
  induction ags with
  | nil =>
    intro acc e h
    simpa using h
  | cons a t ih =>
    intro acc e h
    simp only [List.foldl_cons]
    apply ih
    simp only [upgradeCancelStep]
    exact List.mem_append.mpr (Or.inl h)

theorem upgradeFold_cancelStart_mem (cenv : CancelEnv) (proto : String) (reason : Nat) :
    ∀ (ags : List Agreement) (acc : SOut) (ag : Agreement), ag ∈ ags →
      Ev.cancelStart ag.currentAgreementId reason ∈
        (ags.foldl (upgradeCancelStep cenv proto reason) acc).trace := by
  intro ags
  induction ags with
  | nil =>
    intro acc ag h
    cases h
  | cons a t ih =>
    intro acc ag h
    simp only [List.foldl_cons]
    rcases List.mem_cons.mp h with heq | h2
    · subst heq
      apply upgradeFold_trace_mono
      simp only [upgradeCancelStep, CancelAgreementWithLock]
      refine List.mem_append.mpr (Or.inr ?_)
      refine List.mem_cons.mpr (Or.inr ?_)
      exact List.mem_append.mpr (Or.inl (cancelStart_mem cenv proto ag.currentAgreementId
        reason acc.store))
    · exact ih _ ag h2

/-- C7: HandleWorkloadUpgrade cancels the given agreement id (or every
agreement found for the device and policy name) with the forced-upgrade
termination code, and always ends with no workload-usage record for the key,
so the next workload selection for that device and policy starts from the
highest-priority choice NextHighestPriorityWorkload(0,0,0). -/
theorem C7_workload_upgrade (cenv : CancelEnv) (codeFn : TermReason → Nat) (findAgsErr : Bool)
    (protoName : String) (wi : UpgradeWI) (st : Store)
    (nextWorkload : Nat → Nat → Nat → Option Nat) :
    FindSingleWorkloadUsageByDeviceAndPolicyName
      (HandleWorkloadUpgrade cenv codeFn findAgsErr protoName wi st).store
      wi.device wi.policyName = none
    ∧ selectWorkloadChoice nextWorkload
        (HandleWorkloadUpgrade cenv codeFn findAgsErr protoName wi st).store
        wi.device wi.policyName = nextWorkload 0 0 0
    ∧ (wi.agreementId ≠ "" →
        Ev.cancelStart wi.agreementId (codeFn TermReason.cancelForcedUpgrade) ∈
          (HandleWorkloadUpgrade cenv codeFn findAgsErr protoName wi st).trace)
    ∧ (wi.agreementId = "" → findAgsErr = false →
        ∀ ag ∈ FindAgreementsDevPol st wi.device wi.policyName protoName,
          Ev.cancelStart ag.currentAgreementId (codeFn TermReason.cancelForcedUpgrade) ∈
            (HandleWorkloadUpgrade cenv codeFn findAgsErr protoName wi st).trace) := by
  have hstore : (HandleWorkloadUpgrade cenv codeFn findAgsErr protoName wi st).store
      = DeleteWorkloadUsage
          (if wi.agreementId == "" then
            (if findAgsErr then (⟨st, []⟩ : SOut)
             else (FindAgreementsDevPol st wi.device wi.policyName protoName).foldl
               (upgradeCancelStep cenv protoName (codeFn TermReason.cancelForcedUpgrade))
               ⟨st, []⟩)
          else CancelAgreementWithLock cenv protoName wi.agreementId
            (codeFn TermReason.cancelForcedUpgrade) st).store
          wi.device wi.policyName := rfl
  have h1 : FindSingleWorkloadUsageByDeviceAndPolicyName
      (HandleWorkloadUpgrade cenv codeFn findAgsErr protoName wi st).store
      wi.device wi.policyName = none := by
    rw [hstore]
    exact findWU_deleteWU _ _ _
  refine ⟨h1, ?_, ?_, ?_⟩
  · unfold selectWorkloadChoice
    rw [h1]
  · intro hne
    have hbeq : (wi.agreementId == "") = false := by
      simp [hne]
    simp only [HandleWorkloadUpgrade, hbeq, Bool.false_eq_true, if_false]
    refine List.mem_append.mpr (Or.inl ?_)
    simp only [CancelAgreementWithLock]
    refine List.mem_cons.mpr (Or.inr ?_)
    exact List.mem_append.mpr (Or.inl (cancelStart_mem cenv protoName wi.agreementId
      (codeFn TermReason.cancelForcedUpgrade) st))
  · intro heq herr ag hag
    have hbeq : (wi.agreementId == "") = true := by
      simp [heq]
    simp only [HandleWorkloadUpgrade, hbeq, if_true, herr, Bool.false_eq_true, if_false]
    refine List.mem_append.mpr (Or.inl ?_)
    exact upgradeFold_cancelStart_mem cenv protoName (codeFn TermReason.cancelForcedUpgrade)
      _ _ ag hag

/-- Witness for C7: upgrading a concrete agreement cancels it with the
forced-upgrade code and leaves no workload-usage record. -/
theorem C7_witness :
    FindSingleWorkloadUsageByDeviceAndPolicyName
      (HandleWorkloadUpgrade cenvW (fun _ => 3) false "CS" uwiW stW).store "d1" "p1" = none
    ∧ Ev.cancelStart "a1" 3 ∈
        (HandleWorkloadUpgrade cenvW (fun _ => 3) false "CS" uwiW stW).trace :=
  ⟨(C7_workload_upgrade cenvW (fun _ => 3) false "CS" uwiW stW (fun _ _ _ => none)).1,
   (C7_workload_upgrade cenvW (fun _ => 3) false "CS" uwiW stW (fun _ _ _ => none)).2.2.1
     (by decide)⟩

theorem reconcile_countDelMsg (env : ReplyEnv) (senderId : String) (pol cpol : Policy)
    (agPolicy replyAgId : String) (st : Store) :
    (ReconcileWorkloadUsage env senderId pol cpol agPolicy replyAgId st).trace.countP
      isDelMsg = 0 := by
  simp only [ReconcileWorkloadUsage]
  repeat' split
  all_goals simp [isDelMsg, List.countP_append, List.countP_cons]

theorem core_countDelMsg (env : ReplyEnv) (cenv : CancelEnv) (protoName : String)
    (wi : ReplyWI) (st : Store) :
    (replyAcceptedCore env cenv protoName wi st).trace.countP isDelMsg
      = if (replyAcceptedCore env cenv protoName wi st).ackPhaseDone = true then
          (if wi.messageId != 0 then 1 else 0) else 0 := by
  simp only [replyAcceptedCore]
  repeat' split
  all_goals
    simp_all [isDelMsg, List.countP_append, List.countP_cons, reconcile_countDelMsg,
      cancelWithLock_countDelMsg]

/-- C9: on every path of HandleAgreementReply the inbound exchange message is
deleted exactly once when the work item carries a nonzero message id, and
never when it does not. -/
theorem C9_message_deleted_once (env : ReplyEnv) (cenv : CancelEnv) (protoName : String)
    (wi : ReplyWI) (st : Store) :
    (HandleAgreementReply env cenv protoName wi st).trace.countP isDelMsg
      = if wi.messageId = 0 then 0 else 1 := by
  have h := core_countDelMsg env cenv protoName wi st
  simp only [HandleAgreementReply]
  by_cases hacc : wi.proposalAccepted = true
  · simp only [hacc, if_true]
    cases hdone : (replyAcceptedCore env cenv protoName wi st).ackPhaseDone
    · rw [hdone] at h
      simp only [Bool.false_eq_true, if_false] at h
      by_cases hm : wi.messageId = 0
      · simp only [hm, if_true]
        repeat' split
        all_goals
          simp_all [isDelMsg, List.countP_cons, List.countP_append, -List.countP_eq_zero]
      · have hb : (wi.messageId != 0) = true := by simp [hm]
        simp only [hm, if_false]
        repeat' split
        all_goals
          simp_all [isDelMsg, List.countP_cons, List.countP_append, -List.countP_eq_zero]
    · rw [hdone] at h
      simp only [if_true] at h
      by_cases hm : wi.messageId = 0
      · have hb : (wi.messageId != 0) = false := by simp [hm]
        rw [hb] at h
        simp only [Bool.false_eq_true, if_false] at h
        simp only [hm, if_true]
        repeat' split
        all_goals
          simp_all [isDelMsg, List.countP_cons, List.countP_append, -List.countP_eq_zero]
      · have hb : (wi.messageId != 0) = true := by simp [hm]
        rw [hb] at h
        simp only [if_true] at h
        simp only [hm, if_false]
        repeat' split
        all_goals
          simp_all [isDelMsg, List.countP_cons, List.countP_append, -List.countP_eq_zero]
  · simp only [Bool.not_eq_true] at hacc
    simp only [hacc, Bool.false_eq_true, if_false]
    by_cases hm : wi.messageId = 0 <;>
      repeat' split <;>
      simp_all [isDelMsg, List.countP_cons, List.countP_append, cancel_countDelMsg,
        -List.countP_eq_zero]

theorem reconcile_newWU (env : ReplyEnv) (senderId : String) (pol cpol : Policy)
    (agPolicy replyAgId : String) (st : Store) :
    ∀ w ∈ newWUEvents
      (ReconcileWorkloadUsage env senderId pol cpol agPolicy replyAgId st).trace,
      w.HasEmptyPriority = false := by
  simp only [ReconcileWorkloadUsage]
  repeat' split
  all_goals intro w hw
  all_goals simp_all [newWUEvents, newWUEvents_append]

theorem core_newWU (env : ReplyEnv) (cenv : CancelEnv) (protoName : String) (wi : ReplyWI)
    (st : Store) :
    ∀ w ∈ newWUEvents (replyAcceptedCore env cenv protoName wi st).trace,
      w.HasEmptyPriority = false := by
  simp only [replyAcceptedCore]
  repeat' split
  all_goals intro w hw
  all_goals
    try simp only [newWUEvents, List.append_eq, List.append_assoc, newWUEvents_append,
      cancelWithLock_newWUEvents, cancel_newWUEvents, apply_ite newWUEvents, ite_self,
      List.append_nil, List.nil_append, List.mem_append, List.not_mem_nil, or_false,
      false_or] at hw
  all_goals try rcases hw with hw | hw
  all_goals try rcases hw with hw | hw
  all_goals
    first
    | cases hw
    | exact reconcile_newWU env wi.senderId _ _ _ _ _ w hw
    | exact absurd hw (by simp [cancelWithLock_newWUEvents, cancel_newWUEvents, newWUEvents])

theorem reply_newWU (env : ReplyEnv) (cenv : CancelEnv) (protoName : String) (wi : ReplyWI)
    (st : Store) :
    ∀ w ∈ newWUEvents (HandleAgreementReply env cenv protoName wi st).trace,
      w.HasEmptyPriority = false := by
  simp only [HandleAgreementReply]
  split
  all_goals intro w hw
  all_goals
    try simp only [newWUEvents, List.append_eq, List.append_assoc, newWUEvents_append,
      cancel_newWUEvents, apply_ite newWUEvents, ite_self, List.append_nil,
      List.nil_append, List.mem_append, List.not_mem_nil, or_false, false_or] at hw
  all_goals
    first
    | exact core_newWU env cenv protoName wi st w hw
    | cases hw
    | exact absurd hw (by simp [cancel_newWUEvents, newWUEvents])

theorem iter_newWU (env : InitEnv) (wi : InitiateWI) (agId : String) (st : Store)
    (prod : Policy) (lastW : Option Nat) :
    ∀ w ∈ newWUEvents (iterTrace (initiateIter env wi agId st prod lastW)),
      w.HasEmptyPriority = false := by
  simp only [initiateIter]
  repeat' split
  all_goals intro w hw
  all_goals simp_all [iterTrace, newWUEvents, newWUEvents_append]

theorem loop_newWU (env : InitEnv) (wi : InitiateWI) (agId : String) :
    ∀ (fuel : Nat) (st : Store) (prod : Policy) (lastW : Option Nat),
      ∀ w ∈ newWUEvents (initiateLoop env wi agId fuel st prod lastW).trace,
        w.HasEmptyPriority = false := by
  intro fuel
  induction fuel with
  | zero =>
    intro st prod lastW w hw
    simp [initiateLoop, newWUEvents] at hw
  | succ n ih =>
    intro st prod lastW w hw
    rw [initiateLoop] at hw
    cases hiter : initiateIter env wi agId st prod lastW with
    | exit res =>
      rw [hiter] at hw
      have := iter_newWU env wi agId st prod lastW
      rw [hiter] at this
      exact this w hw
    | step st1 tr1 prod1 last1 =>
      rw [hiter] at hw
      simp only [newWUEvents_append, List.mem_append] at hw
      rcases hw with hw | hw
      · have := iter_newWU env wi agId st prod lastW
        rw [hiter] at this
        exact this w hw
      · exact ih st1 prod1 last1 w hw

theorem finish_newWU (env : InitEnv) (cfg : AgbotConfig) (wi : InitiateWI)
    (agId bcType bcName bcOrg protoName : String) (prod : Policy) (st : Store) :
    newWUEvents (initiateFinish env cfg wi agId bcType bcName bcOrg protoName prod st).trace
      = [] := by
  simp only [initiateFinish]
  repeat' split
  all_goals simp [newWUEvents]

/-- C8: no operation of the core ever creates a workload-usage record for a
workload with an empty priority section: every record creation performed by
InitiateNewAgreement's selection loop or by the reply handler is for a
workload whose HasEmptyPriority is false. -/
theorem C8_no_empty_priority_usage (ienv : InitEnv) (cfg : AgbotConfig) (iwi : InitiateWI)
    (bcType bcName bcOrg protoName : String) (fuel : Nat) (st : Store)
    (renv : ReplyEnv) (cenv : CancelEnv) (protoName2 : String) (rwi : ReplyWI) (st2 : Store) :
    (∀ w ∈ newWUEvents
        (InitiateNewAgreement ienv cfg iwi bcType bcName bcOrg protoName fuel st).trace,
      w.HasEmptyPriority = false)
    ∧ (∀ w ∈ newWUEvents (HandleAgreementReply renv cenv protoName2 rwi st2).trace,
      w.HasEmptyPriority = false) := by
  refine ⟨?_, reply_newWU renv cenv protoName2 rwi st2⟩
  simp only [InitiateNewAgreement]
  repeat' split
  all_goals intro w hw
  all_goals
    simp only [newWUEvents, newWUEvents_append, finish_newWU, List.mem_append,
      List.append_nil, List.nil_append, List.not_mem_nil, or_false, false_or] at hw
  all_goals
    first
    | cases hw
    | exact loop_newWU ienv iwi _ fuel st iwi.producerPolicy none w hw

/-- Witness for C8: a concrete reply-handler run that creates a record does so
for a workload with a non-empty priority. -/
theorem C8_witness :
    Workload.HasEmptyPriority wlW3 = false :=
  (C8_no_empty_priority_usage envInitTriv cfgW wiInitTriv "" "" "" "CS" 0 stW
      renvW3 cenvW "CS" rwiW3 stW3).2 wlW3 (by decide)

/-- C3: in reply handling with no workload-usage record for the sender and
policy name, a priority mismatch against NextHighestPriorityWorkload(0,0,0)
invalidates the ack (a negative ack is sent, nothing is created), while a
priority match with a non-empty priority creates a record with reqs-not-met
false and the reply's agreement id. -/
theorem C3_reply_no_usage_record (env : ReplyEnv) (cenv : CancelEnv) (protoName : String)
    (wi : ReplyWI) (st : Store) (ag : Agreement) (tsandcs : String) (pol cpol : Policy)
    (hacc : wi.proposalAccepted = true)
    (hferr : env.findAgErr = false)
    (hfind : FindSingleAgreementByAgreementId st wi.replyAgreementId protoName true = some ag)
    (hdup : AlreadyReceivedReply ag = false)
    (hdp : env.demarshalProposal ag.proposal = some tsandcs)
    (hpol : env.demarshalPolicy tsandcs = some pol)
    (hpersist : env.persistReplyOk = true)
    (hrecord : env.recordStateOk = true)
    (hcpol : env.demarshalPolicy ag.policy = some cpol)
    (hwuerr : env.findWUErr = false)
    (hwu : FindSingleWorkloadUsageByDeviceAndPolicyName st wi.senderId cpol.headerName = none)
    (hmt : env.createMsgTarget = true)
    (hpost : env.postReplyOk = true) :
    (Priority.IsSame (env.nhpw000 cpol).priority
        (pol.workloads.getD 0 dWorkload).priority = false →
      (HandleAgreementReply env cenv protoName wi st).ackValid = false
      ∧ Ev.sendAck false wi.replyAgreementId ∈
          (HandleAgreementReply env cenv protoName wi st).trace
      ∧ (HandleAgreementReply env cenv protoName wi st).store.usages = st.usages
      ∧ newWUEvents (HandleAgreementReply env cenv protoName wi st).trace = [])
    ∧ (Priority.IsSame (env.nhpw000 cpol).priority
          (pol.workloads.getD 0 dWorkload).priority = true →
        (pol.workloads.getD 0 dWorkload).HasEmptyPriority = false →
        FindSingleWorkloadUsageByDeviceAndPolicyName
            (HandleAgreementReply env cenv protoName wi st).store
            wi.senderId cpol.headerName
          = some (NewWorkloadUsage env.now wi.senderId pol.haPartners ag.policy
              cpol.headerName (pol.workloads.getD 0 dWorkload).priority false
              wi.replyAgreementId)
        ∧ Ev.newWU wi.senderId cpol.headerName (pol.workloads.getD 0 dWorkload) false
            wi.replyAgreementId ∈ (HandleAgreementReply env cenv protoName wi st).trace) := by
  have hwu1 : FindSingleWorkloadUsageByDeviceAndPolicyName
      (PersistReplyStore st wi.replyAgreementId protoName env.now wi.counterParty
        wi.protocolVersion) wi.senderId cpol.headerName = none := by
    unfold PersistReplyStore
    exact hwu
  constructor
  · intro hmis
    have hrec : ReconcileWorkloadUsage env wi.senderId pol cpol ag.policy
        wi.replyAgreementId (PersistReplyStore st wi.replyAgreementId protoName env.now
          wi.counterParty wi.protocolVersion)
        = ⟨PersistReplyStore st wi.replyAgreementId protoName env.now wi.counterParty
            wi.protocolVersion, [], false⟩ := by
      simp only [ReconcileWorkloadUsage, hwuerr, Bool.false_eq_true, if_false, hwu1, hmis,
        Bool.not_false, if_true]
    have hcore : replyAcceptedCore env cenv protoName wi st
        = ⟨false, true, false,
           PersistReplyStore st wi.replyAgreementId protoName env.now wi.counterParty
             wi.protocolVersion,
           [Ev.persistReplyEv wi.replyAgreementId, Ev.recordState wi.replyAgreementId]⟩ := by
      simp [replyAcceptedCore, hferr, hfind, hdup, hdp, hpol, hpersist, hrecord, hcpol,
        hrec]
    refine ⟨?_, ?_, ?_, ?_⟩ <;>
      simp [HandleAgreementReply, hacc, hcore, hmt, newWUEvents, apply_ite newWUEvents,
        ite_self, newWUEvents_append, PersistReplyStore]
  · intro hsame hne
    have hrec : ReconcileWorkloadUsage env wi.senderId pol cpol ag.policy
        wi.replyAgreementId (PersistReplyStore st wi.replyAgreementId protoName env.now
          wi.counterParty wi.protocolVersion)
        = ⟨insertUsage (PersistReplyStore st wi.replyAgreementId protoName env.now
              wi.counterParty wi.protocolVersion)
            (NewWorkloadUsage env.now wi.senderId pol.haPartners ag.policy cpol.headerName
              (pol.workloads.getD 0 dWorkload).priority false wi.replyAgreementId),
           [Ev.newWU wi.senderId cpol.headerName (pol.workloads.getD 0 dWorkload) false
             wi.replyAgreementId], true⟩ := by
      simp only [ReconcileWorkloadUsage, hwuerr, Bool.false_eq_true, if_false, hwu1, hsame,
        Bool.not_true, if_false, hne, Bool.not_false, if_true]
    have hcore : replyAcceptedCore env cenv protoName wi st
        = ⟨true, true, true,
           insertUsage (PersistReplyStore st wi.replyAgreementId protoName env.now
               wi.counterParty wi.protocolVersion)
             (NewWorkloadUsage env.now wi.senderId pol.haPartners ag.policy cpol.headerName
               (pol.workloads.getD 0 dWorkload).priority false wi.replyAgreementId),
           [Ev.persistReplyEv wi.replyAgreementId, Ev.recordState wi.replyAgreementId,
            Ev.newWU wi.senderId cpol.headerName (pol.workloads.getD 0 dWorkload) false
              wi.replyAgreementId]
           ++ ((if env.createMsgTarget then [Ev.sendAck true wi.replyAgreementId] else [])
             ++ (if wi.messageId != 0 then [Ev.deleteMessage wi.messageId] else [])
             ++ [Ev.lockRelease wi.replyAgreementId, Ev.postReply wi.replyAgreementId])⟩ := by
      simp [replyAcceptedCore, hferr, hfind, hdup, hdp, hpol, hpersist, hrecord, hcpol,
        hrec, hpost, List.append_assoc]
    constructor
    · have hstore : (HandleAgreementReply env cenv protoName wi st).store
          = insertUsage (PersistReplyStore st wi.replyAgreementId protoName env.now
              wi.counterParty wi.protocolVersion)
            (NewWorkloadUsage env.now wi.senderId pol.haPartners ag.policy cpol.headerName
              (pol.workloads.getD 0 dWorkload).priority false wi.replyAgreementId) := by
        simp [HandleAgreementReply, hacc, hcore]
      rw [hstore]
      exact findWU_insertUsage _ _ _ _ hwu1 (by simp [usageMatches, NewWorkloadUsage])
    · simp [HandleAgreementReply, hacc, hcore]

/-- Witness for C3: a concrete reply with no usage record and a matching
non-empty priority creates the record with reqs-not-met false and the reply's
agreement id. -/
theorem C3_witness :
    FindSingleWorkloadUsageByDeviceAndPolicyName
        (HandleAgreementReply renvW3 cenvW "CS" rwiW3 stW3).store "dev3" "p3"
      = some (NewWorkloadUsage 1 "dev3" [] "cpolstr" "p3" wlW3.priority false "a3")
    ∧ Ev.newWU "dev3" "p3" wlW3 false "a3" ∈
        (HandleAgreementReply renvW3 cenvW "CS" rwiW3 stW3).trace :=
  (C3_reply_no_usage_record renvW3 cenvW "CS" rwiW3 stW3 agW3 "ts" polW3 cpolW3
    rfl rfl (by decide) (by decide) rfl (by decide) rfl rfl (by decide) rfl (by decide)
    rfl rfl).2 (by decide) (by decide)

/-- C1: on the validated positive-reply path the handler emits, in order, the
positive ack, the deletion of the inbound message, the lock release, and only
then the ledger commit; when the commit fails, a cancellation runs under a
freshly acquired lock with the CANCEL_BC_WRITE_FAILED termination code
(followed by the trailing negative ack the source also sends). -/
theorem C1_ack_before_commit (env : ReplyEnv) (cenv : CancelEnv) (protoName : String)
    (wi : ReplyWI) (st : Store) (ag : Agreement) (tsandcs : String) (pol cpol : Policy)
    (st2 : Store) (trR : List Ev)
    (hacc : wi.proposalAccepted = true)
    (hferr : env.findAgErr = false)
    (hfind : FindSingleAgreementByAgreementId st wi.replyAgreementId protoName true = some ag)
    (hdup : AlreadyReceivedReply ag = false)
    (hdp : env.demarshalProposal ag.proposal = some tsandcs)
    (hpol : env.demarshalPolicy tsandcs = some pol)
    (hpersist : env.persistReplyOk = true)
    (hrecord : env.recordStateOk = true)
    (hcpol : env.demarshalPolicy ag.policy = some cpol)
    (hrec : ReconcileWorkloadUsage env wi.senderId pol cpol ag.policy wi.replyAgreementId
        (PersistReplyStore st wi.replyAgreementId protoName env.now wi.counterParty
          wi.protocolVersion) = ⟨st2, trR, true⟩)
    (hmt : env.createMsgTarget = true)
    (hmsg : wi.messageId ≠ 0) :
    (env.postReplyOk = true →
      HandleAgreementReply env cenv protoName wi st
        = ⟨true, st2,
           Ev.lockAcquire wi.replyAgreementId ::
             ([Ev.persistReplyEv wi.replyAgreementId, Ev.recordState wi.replyAgreementId]
               ++ trR
               ++ [Ev.sendAck true wi.replyAgreementId, Ev.deleteMessage wi.messageId,
                   Ev.lockRelease wi.replyAgreementId, Ev.postReply wi.replyAgreementId])⟩)
    ∧ (env.postReplyOk = false →
      HandleAgreementReply env cenv protoName wi st
        = ⟨false,
           (CancelAgreementWithLock cenv protoName wi.replyAgreementId
             (env.getTerminationCode TermReason.cancelBCWriteFailed) st2).store,
           Ev.lockAcquire wi.replyAgreementId ::
             ([Ev.persistReplyEv wi.replyAgreementId, Ev.recordState wi.replyAgreementId]
               ++ trR
               ++ [Ev.sendAck true wi.replyAgreementId, Ev.deleteMessage wi.messageId,
                   Ev.lockRelease wi.replyAgreementId, Ev.postReply wi.replyAgreementId]
               ++ (Ev.lockAcquire wi.replyAgreementId ::
                    ((CancelAgreement cenv protoName wi.replyAgreementId
                       (env.getTerminationCode TermReason.cancelBCWriteFailed) st2).trace
                     ++ [Ev.lockRelease wi.replyAgreementId,
                         Ev.lockDelete wi.replyAgreementId]))
               ++ [Ev.sendAck false wi.replyAgreementId])⟩) := by
  have hbm : (wi.messageId != 0) = true := by simp [hmsg]
  constructor
  · intro hpost
    have hcore : replyAcceptedCore env cenv protoName wi st
        = ⟨true, true, true, st2,
           [Ev.persistReplyEv wi.replyAgreementId, Ev.recordState wi.replyAgreementId]
             ++ trR
             ++ [Ev.sendAck true wi.replyAgreementId, Ev.deleteMessage wi.messageId,
                 Ev.lockRelease wi.replyAgreementId, Ev.postReply wi.replyAgreementId]⟩ := by
      simp [replyAcceptedCore, hferr, hfind, hdup, hdp, hpol, hpersist, hrecord, hcpol,
        hrec, hpost, hmt, hbm, List.append_assoc]
    simp [HandleAgreementReply, hacc, hcore, List.append_assoc]
  · intro hpost
    have hcore : replyAcceptedCore env cenv protoName wi st
        = ⟨false, true, true,
           (CancelAgreementWithLock cenv protoName wi.replyAgreementId
             (env.getTerminationCode TermReason.cancelBCWriteFailed) st2).store,
           [Ev.persistReplyEv wi.replyAgreementId, Ev.recordState wi.replyAgreementId]
             ++ trR
             ++ [Ev.sendAck true wi.replyAgreementId, Ev.deleteMessage wi.messageId,
                 Ev.lockRelease wi.replyAgreementId, Ev.postReply wi.replyAgreementId]
             ++ (CancelAgreementWithLock cenv protoName wi.replyAgreementId
                  (env.getTerminationCode TermReason.cancelBCWriteFailed) st2).trace⟩ := by
      simp [replyAcceptedCore, hferr, hfind, hdup, hdp, hpol, hpersist, hrecord, hcpol,
        hrec, hpost, hmt, hbm, List.append_assoc]
    simp [HandleAgreementReply, hacc, hcore, hmt, CancelAgreementWithLock,
      List.append_assoc]

/-- Witness for C1: a concrete validated positive reply with a failing commit
acks, deletes the message, releases the lock, commits, and then cancels under
a fresh lock. -/
theorem C1_witness :
    HandleAgreementReply renvW4 cenvW "CS" rwiW3 stW3
      = ⟨false,
         (CancelAgreementWithLock cenvW "CS" "a3" 7 stC1).store,
         Ev.lockAcquire "a3" ::
           ([Ev.persistReplyEv "a3", Ev.recordState "a3"]
             ++ [Ev.newWU "dev3" "p3" wlW3 false "a3"]
             ++ [Ev.sendAck true "a3", Ev.deleteMessage 4, Ev.lockRelease "a3",
                 Ev.postReply "a3"]
             ++ (Ev.lockAcquire "a3" ::
                  ((CancelAgreement cenvW "CS" "a3" 7 stC1).trace
                   ++ [Ev.lockRelease "a3", Ev.lockDelete "a3"]))
             ++ [Ev.sendAck false "a3"])⟩ :=
  (C1_ack_before_commit renvW4 cenvW "CS" rwiW3 stW3 agW3 "ts" polW3 cpolW3 stC1
    [Ev.newWU "dev3" "p3" wlW3 false "a3"]
    rfl rfl (by decide) (by decide) rfl (by decide) rfl rfl (by decide) (by decide) rfl
    (by decide)).2 rfl

/-- C4 (amended): when a selection-loop pass chooses the same workload as the
previous pass, the iteration fails selection and unconditionally deletes the
workload-usage record for the device and policy name, whether or not the loop
created it. -/
theorem C4_exhausted_selection (env : InitEnv) (wi : InitiateWI) (agId : String) (st : Store)
    (prod : Policy) (lastW : Option Nat)
    (hferr : env.findWUErr = false)
    (hsame : selectWorkloadChoice env.nextWorkload st wi.deviceId
      wi.consumerPolicy.headerName = lastW) :
    initiateIter env wi agId st prod lastW
      = IterRes.exit ⟨DeleteWorkloadUsage st wi.deviceId wi.consumerPolicy.headerName,
          [Ev.deleteWU wi.deviceId wi.consumerPolicy.headerName], LoopExit.failed⟩
    ∧ FindSingleWorkloadUsageByDeviceAndPolicyName
        (DeleteWorkloadUsage st wi.deviceId wi.consumerPolicy.headerName)
        wi.deviceId wi.consumerPolicy.headerName = none := by
  constructor
  · simp [initiateIter, hferr, hsame]
  · exact findWU_deleteWU _ _ _

/-- Counterexample for C4 as stated: a workload-usage record that existed
before the selection loop (the run creates none) is still deleted on the
exhausted-selection exit of InitiateNewAgreement. -/
theorem C4_counterexample :
    FindSingleWorkloadUsageByDeviceAndPolicyName stC4 "d1" "polC4" = some usageC4
    ∧ newWUEvents (InitiateNewAgreement envC4 cfgW wiC4 "" "" "" "CS" 3 stC4).trace = []
    ∧ Ev.deleteWU "d1" "polC4" ∈
        (InitiateNewAgreement envC4 cfgW wiC4 "" "" "" "CS" 3 stC4).trace
    ∧ FindSingleWorkloadUsageByDeviceAndPolicyName
        (InitiateNewAgreement envC4 cfgW wiC4 "" "" "" "CS" 3 stC4).store "d1" "polC4"
      = none := by
  decide

/-- Witness for C4 (amended): a concrete repeated choice exits with failure
and deletes the record. -/
theorem C4_witness :
    initiateIter envC5 wiInitTriv "agZ" ⟨[], []⟩ polW3 (some 0)
      = IterRes.exit ⟨DeleteWorkloadUsage ⟨[], []⟩ "d" "p3", [Ev.deleteWU "d" "p3"],
          LoopExit.failed⟩
    ∧ FindSingleWorkloadUsageByDeviceAndPolicyName (DeleteWorkloadUsage ⟨[], []⟩ "d" "p3")
        "d" "p3" = none :=
  C4_exhausted_selection envC5 wiInitTriv "agZ" ⟨[], []⟩ polW3 (some 0) rfl rfl

theorem findWU_UpdateRetryCount (st : Store) (dev pol : String) (count : Nat) (agId : String) :
    FindSingleWorkloadUsageByDeviceAndPolicyName (UpdateRetryCount st dev pol count agId)
      dev pol
      = (FindSingleWorkloadUsageByDeviceAndPolicyName st dev pol).map
          (fun u => { u with retryCount := count, currentAgreementId := agId }) := by
  unfold UpdateRetryCount
  exact findWU_updateUsage st dev pol _ (fun u => rfl)

theorem findWU_UpdatePriority (st : Store) (dev pol : String)
    (priorityValue retryDurationS verifiedDurationS : Nat) (agId : String) :
    FindSingleWorkloadUsageByDeviceAndPolicyName
      (UpdatePriority st dev pol priorityValue retryDurationS verifiedDurationS agId) dev pol
      = (FindSingleWorkloadUsageByDeviceAndPolicyName st dev pol).map
          (fun u => { u with
            priority := priorityValue
            retryDurationS := retryDurationS
            verifiedDurationS := verifiedDurationS
            retryCount := 0
            currentAgreementId := agId }) := by
  unfold UpdatePriority
  exact findWU_updateUsage st dev pol _ (fun u => rfl)

/-- C5: an unsupported workload with non-empty priority makes the pass record
the skipped priority: on the first pass a fresh record is created with
reqs-not-met true, the chosen priority and durations and the current
agreement id, on later passes the existing record's priority fields are
rewritten; in both cases the retry count is then set to the priority's
retries threshold plus one and the loop continues. -/
theorem C5_unsupported_workload_rollback (env : InitEnv) (wi : InitiateWI) (agId : String)
    (st : Store) (prod : Policy) (i : Nat) (tOk : Bool)
    (hferr : env.findWUErr = false)
    (hgw : env.getWorkload i = GetWLRes.ok tOk)
    (hpat : wi.consumerPolicy.patternId = "")
    (hsupp : env.supports i = false)
    (hw : (wi.consumerPolicy.workloads.getD i dWorkload).HasEmptyPriority = false)
    (hretry : env.updRetryErr = false) :
    (env.newWUErr = false →
      FindSingleWorkloadUsageByDeviceAndPolicyName st wi.deviceId
        wi.consumerPolicy.headerName = none →
      env.nextWorkload 0 0 0 = some i →
      initiateIter env wi agId st prod none
        = IterRes.step
            (UpdateRetryCount
              (insertUsage st (NewWorkloadUsage env.now wi.deviceId prod.haPartners ""
                wi.consumerPolicy.headerName
                (wi.consumerPolicy.workloads.getD i dWorkload).priority true agId))
              wi.deviceId wi.consumerPolicy.headerName
              ((wi.consumerPolicy.workloads.getD i dWorkload).priority.retries + 1) agId)
            [Ev.newWU wi.deviceId wi.consumerPolicy.headerName
              (wi.consumerPolicy.workloads.getD i dWorkload) true agId,
             Ev.updRetryCount wi.deviceId wi.consumerPolicy.headerName
              ((wi.consumerPolicy.workloads.getD i dWorkload).priority.retries + 1) agId]
            prod (some i)
      ∧ FindSingleWorkloadUsageByDeviceAndPolicyName
          (UpdateRetryCount
            (insertUsage st (NewWorkloadUsage env.now wi.deviceId prod.haPartners ""
              wi.consumerPolicy.headerName
              (wi.consumerPolicy.workloads.getD i dWorkload).priority true agId))
            wi.deviceId wi.consumerPolicy.headerName
            ((wi.consumerPolicy.workloads.getD i dWorkload).priority.retries + 1) agId)
          wi.deviceId wi.consumerPolicy.headerName
        = some { NewWorkloadUsage env.now wi.deviceId prod.haPartners ""
              wi.consumerPolicy.headerName
              (wi.consumerPolicy.workloads.getD i dWorkload).priority true agId with
            retryCount := (wi.consumerPolicy.workloads.getD i dWorkload).priority.retries + 1,
            currentAgreementId := agId })
    ∧ (∀ (j : Nat) (u : WorkloadUsage), env.updPriorityErr = false → i ≠ j →
      selectWorkloadChoice env.nextWorkload st wi.deviceId
        wi.consumerPolicy.headerName = some i →
      FindSingleWorkloadUsageByDeviceAndPolicyName st wi.deviceId
        wi.consumerPolicy.headerName = some u →
      initiateIter env wi agId st prod (some j)
        = IterRes.step
            (UpdateRetryCount
              (UpdatePriority st wi.deviceId wi.consumerPolicy.headerName
                (wi.consumerPolicy.workloads.getD i dWorkload).priority.priorityValue
                (wi.consumerPolicy.workloads.getD i dWorkload).priority.retryDurationS
                (wi.consumerPolicy.workloads.getD i dWorkload).priority.verifiedDurationS
                agId)
              wi.deviceId wi.consumerPolicy.headerName
              ((wi.consumerPolicy.workloads.getD i dWorkload).priority.retries + 1) agId)
            [Ev.updPriority wi.deviceId wi.consumerPolicy.headerName
              (wi.consumerPolicy.workloads.getD i dWorkload).priority.priorityValue agId,
             Ev.updRetryCount wi.deviceId wi.consumerPolicy.headerName
              ((wi.consumerPolicy.workloads.getD i dWorkload).priority.retries + 1) agId]
            prod (some i)
      ∧ FindSingleWorkloadUsageByDeviceAndPolicyName
          (UpdateRetryCount
            (UpdatePriority st wi.deviceId wi.consumerPolicy.headerName
              (wi.consumerPolicy.workloads.getD i dWorkload).priority.priorityValue
              (wi.consumerPolicy.workloads.getD i dWorkload).priority.retryDurationS
              (wi.consumerPolicy.workloads.getD i dWorkload).priority.verifiedDurationS
              agId)
            wi.deviceId wi.consumerPolicy.headerName
            ((wi.consumerPolicy.workloads.getD i dWorkload).priority.retries + 1) agId)
          wi.deviceId wi.consumerPolicy.headerName
        = some { u with
            priority := (wi.consumerPolicy.workloads.getD i dWorkload).priority.priorityValue,
            retryDurationS :=
              (wi.consumerPolicy.workloads.getD i dWorkload).priority.retryDurationS,
            verifiedDurationS :=
              (wi.consumerPolicy.workloads.getD i dWorkload).priority.verifiedDurationS,
            retryCount := (wi.consumerPolicy.workloads.getD i dWorkload).priority.retries + 1,
            currentAgreementId := agId }) := by
  have hw2 : (wi.consumerPolicy.workloads[i]?.getD dWorkload).HasEmptyPriority = false := by
    simpa [List.getD_eq_getElem?_getD] using hw
  constructor
  · intro hnew hwu hnw
    have hchoice : selectWorkloadChoice env.nextWorkload st wi.deviceId
        wi.consumerPolicy.headerName = some i := by
      simp [selectWorkloadChoice, hwu, hnw]
    constructor
    · simp [initiateIter, hferr, hchoice, hgw, hpat, hsupp, hw, hw2, hnew, hwu, hretry]
    · have h1 : FindSingleWorkloadUsageByDeviceAndPolicyName
          (insertUsage st (NewWorkloadUsage env.now wi.deviceId prod.haPartners ""
            wi.consumerPolicy.headerName
            (wi.consumerPolicy.workloads.getD i dWorkload).priority true agId))
          wi.deviceId wi.consumerPolicy.headerName
          = some (NewWorkloadUsage env.now wi.deviceId prod.haPartners ""
              wi.consumerPolicy.headerName
              (wi.consumerPolicy.workloads.getD i dWorkload).priority true agId) :=
        findWU_insertUsage _ _ _ _ hwu (by simp [usageMatches, NewWorkloadUsage])
      rw [findWU_UpdateRetryCount, h1]
      rfl
  · intro j u hupd hij hchoice hwu
    have hne : (some i == some j) = false := by
      simp [hij]
    constructor
    · simp [initiateIter, hferr, hchoice, hne, hgw, hpat, hsupp, hw, hw2, hupd, hretry]
    · rw [findWU_UpdateRetryCount, findWU_UpdatePriority, hwu]
      rfl

/-- Witness for C5 at a concrete first pass over an unsupported non-empty
priority workload. -/
theorem C5_witness :
    initiateIter envC5 wiInitTriv "agZ" ⟨[], []⟩ polW3 none
      = IterRes.step
          (UpdateRetryCount
            (insertUsage ⟨[], []⟩ (NewWorkloadUsage 9 "d" [] "" "p3" wlW3.priority true
              "agZ")) "d" "p3" 2 "agZ")
          [Ev.newWU "d" "p3" wlW3 true "agZ", Ev.updRetryCount "d" "p3" 2 "agZ"]
          polW3 (some 0)
    ∧ FindSingleWorkloadUsageByDeviceAndPolicyName
        (UpdateRetryCount
          (insertUsage ⟨[], []⟩ (NewWorkloadUsage 9 "d" [] "" "p3" wlW3.priority true
            "agZ")) "d" "p3" 2 "agZ") "d" "p3"
      = some { NewWorkloadUsage 9 "d" [] "" "p3" wlW3.priority true "agZ" with
          retryCount := 2, currentAgreementId := "agZ" } :=
  (C5_unsupported_workload_rollback envC5 wiInitTriv "agZ" ⟨[], []⟩ polW3 0 true
    rfl rfl rfl rfl (by decide) rfl).1 rfl rfl rfl

theorem findAg_insertAgreement (st : Store) (a : Agreement) (id proto : String)
    (hnone : FindSingleAgreementByAgreementId st id proto true = none)
    (ha : agreementMatches id proto true a = true) :
    FindSingleAgreementByAgreementId (insertAgreement st a) id proto true = some a := by
  unfold FindSingleAgreementByAgreementId insertAgreement
  rw [show ({ st with agreements := st.agreements ++ [a] } : Store).agreements
      = st.agreements ++ [a] from rfl]
  rw [List.find?_append]
  unfold FindSingleAgreementByAgreementId at hnone
  rw [hnone]
  simp [List.find?, ha]

/-- C10: after the pending record is persisted, a CreateMessageTarget failure
leaves the record in the store with only the attempt in the trace, and the
rollback via DeleteAgreement happens exactly when the message target was
created and InitiateAgreement failed. -/
theorem C10_pending_rollback (env : InitEnv) (cfg : AgbotConfig) (wi : InitiateWI)
    (agId bcType bcName bcOrg protoName : String) (prod : Policy) (st : Store)
    (hha : incompleteHAGroup env.partnerOk prod = false)
    (hig : ignoreDevice cfg prod = false)
    (hatt : env.attemptErr = false)
    (hfresh : FindSingleAgreementByAgreementId st agId protoName true = none) :
    (env.createMsgTargetOk = false →
      initiateFinish env cfg wi agId bcType bcName bcOrg protoName prod st
        = ⟨insertAgreement st (AgreementAttempt agId wi.org wi.deviceId
            wi.consumerPolicy.headerName bcType bcName bcOrg protoName
            wi.consumerPolicy.patternId), [Ev.agreementAttempt agId]⟩
      ∧ FindSingleAgreementByAgreementId
          (initiateFinish env cfg wi agId bcType bcName bcOrg protoName prod st).store
          agId protoName true
        = some (AgreementAttempt agId wi.org wi.deviceId wi.consumerPolicy.headerName
            bcType bcName bcOrg protoName wi.consumerPolicy.patternId))
    ∧ (Ev.deleteAgreement agId ∈
        (initiateFinish env cfg wi agId bcType bcName bcOrg protoName prod st).trace
      ↔ env.createMsgTargetOk = true ∧ env.initiateOk = false) := by
  have hfind2 : (FindSingleAgreementByAgreementId st agId protoName true).isSome = false := by
    rw [hfresh]
    rfl
  constructor
  · intro hmt
    have hfin : initiateFinish env cfg wi agId bcType bcName bcOrg protoName prod st
        = ⟨insertAgreement st (AgreementAttempt agId wi.org wi.deviceId
            wi.consumerPolicy.headerName bcType bcName bcOrg protoName
            wi.consumerPolicy.patternId), [Ev.agreementAttempt agId]⟩ := by
      simp [initiateFinish, hha, hig, hatt, hfind2, hmt]
    refine ⟨hfin, ?_⟩
    rw [hfin]
    exact findAg_insertAgreement st _ agId protoName hfresh
      (by simp [agreementMatches, AgreementAttempt])
  · cases hmt : env.createMsgTargetOk
    · simp [initiateFinish, hha, hig, hatt, hfind2, hmt]
    · cases hio : env.initiateOk <;>
        simp [initiateFinish, hha, hig, hatt, hfind2, hmt, hio]

/-- Witness for C10: a concrete CreateMessageTarget failure leaves the
pending record in the store. -/
theorem C10_witness :
    FindSingleAgreementByAgreementId
        (initiateFinish envInitTriv cfgW wiInitTriv "agY" "" "" "" "CS" polW3
          ⟨[], []⟩).store "agY" "CS" true
      = some (AgreementAttempt "agY" "o" "d" "p3" "" "" "" "CS" "") :=
  ((C10_pending_rollback envInitTriv cfgW wiInitTriv "agY" "" "" "" "CS" polW3 ⟨[], []⟩
    rfl rfl rfl rfl).1 rfl).2

end AgreementBot
